import Mathlib

/-!
Shallow embedding of the I-SEMS frontend (React/JS) pieces that the claims
concern: the LoadPage pump interlock (two variants), the per-load tier table,
the render decision for load controls, the grid-mode buttons, the API response
handler, the chart-window extraction, the per-page derivation of the
deviceOnline flag, and (modelled from the spec, as the backend is not among the
provided sources) the OLS linear forecast.

JS numbers are modelled as rationals; a possibly-absent (undefined) field is an
Option.  The two JS defaulting idioms differ on 0 and are modelled separately.
-/

/-- JS logical-or defaulting on a numeric field: the expression x || d yields d
when x is undefined or falsy, and 0 is falsy, so a present 0 is replaced by d. -/
def jsOrDefault (x : Option ℚ) (d : ℚ) : ℚ :=
  match x with
  | none => d
  | some v => if v = 0 then d else v

/-- JS nullish coalescing on a numeric field: the expression x ?? d yields d
only when x is undefined or null; a present 0 is kept. -/
def jsNullish (x : Option ℚ) (d : ℚ) : ℚ :=
  match x with
  | none => d
  | some v => v

/-- JS nullish coalescing on a boolean field. -/
def jsNullishBool (x : Option Bool) (d : Bool) : Bool :=
  match x with
  | none => d
  | some b => b

/-- JS truthiness of a possibly-absent boolean, as used for checked flags:
undefined is falsy, so it reads as false. -/
def jsTruthyBool (x : Option Bool) : Bool :=
  match x with
  | none => false
  | some b => b

/-- JS logical-or defaulting on a string: the empty string is falsy. -/
def jsOrStr (x : Option String) (d : String) : String :=
  match x with
  | none => d
  | some s => if s = "" then d else s

/-- Pump lock flag of the older LoadPage variant (src/unnamed/part_002 line
325): locked is the value of (current.soc || 100) < 20. -/
def pumpLockedOr (soc : Option ℚ) : Bool :=
  decide (jsOrDefault soc 100 < 20)

/-- Pump lock flag of the newer LoadPage variant (src/unnamed/part_003 lines
80 and 120): batterySoc is loadData.battery_soc ?? 100 and locked is
batterySoc < 20. -/
def pumpLockedNullish (battery_soc : Option ℚ) : Bool :=
  decide (jsNullish battery_soc 100 < 20)

/-- Interlock trace of the newer variant over a trajectory of present SOC
readings: the lock flag recomputed at each successive payload. -/
def pumpLockTrace (socs : List ℚ) : List Bool :=
  socs.map (fun s => pumpLockedNullish (some s))

/-- Fields of the current reading that the LoadPage load table reads. -/
structure CurrentPayload where
  soc : Option ℚ
  light_on : Option Bool
  fan_on : Option Bool
  pump_on : Option Bool
  power : Option ℚ

/-- Empty object used when the payload has no current reading. -/
def emptyCurrent : CurrentPayload :=
  { soc := none, light_on := none, fan_on := none, pump_on := none, power := none }

/-- Load tiers; the source tags entries with the strings essential,
semi-essential and non-essential. -/
inductive Tier
  | essential
  | semiEssential
  | nonEssential
deriving DecidableEq

/-- One entry of the LoadPage loads table (id, on flag, tier, lock flag). -/
structure LoadEntry where
  id : String
  isOn : Bool
  tier : Tier
  locked : Bool

/-- Loads table of the older LoadPage variant (src/unnamed/part_002 lines
296 to 327): light and fan carry locked := false literally; the pump lock is
the soc expression. -/
def loadsV2 (current : CurrentPayload) : List LoadEntry :=
  [ { id := "light", isOn := jsTruthyBool current.light_on,
      tier := Tier.essential, locked := false },
    { id := "fan", isOn := jsTruthyBool current.fan_on,
      tier := Tier.semiEssential, locked := false },
    { id := "pump", isOn := jsTruthyBool current.pump_on,
      tier := Tier.nonEssential, locked := pumpLockedOr current.soc } ]

/-- Loads table of the newer LoadPage variant (src/unnamed/part_003 lines
84 to 125): light and fan carry locked := false literally; the pump lock is
batterySoc < 20 on the already-defaulted batterySoc. -/
def loadsV3 (current : CurrentPayload) (batterySoc : ℚ) : List LoadEntry :=
  [ { id := "light", isOn := jsTruthyBool current.light_on,
      tier := Tier.essential, locked := false },
    { id := "fan", isOn := jsTruthyBool current.fan_on,
      tier := Tier.semiEssential, locked := false },
    { id := "pump", isOn := jsTruthyBool current.pump_on,
      tier := Tier.nonEssential, locked := decide (batterySoc < 20) } ]

/-- Control affordance rendered next to a load: when the entry is locked the
page renders a Lock icon with no handler; otherwise a Switch whose
onCheckedChange calls handleToggle and whose disabled attribute is
isControlling || !deviceOnline (src/unnamed/part_003 lines 221 to 232,
src/unnamed/part_002 lines 417 to 428). -/
inductive LoadControlUI
  | lockIcon
  | toggleSwitch (checked : Bool) (disabled : Bool)
deriving DecidableEq

/-- Render decision for one load entry. -/
def renderLoadControl (locked isOn isControlling deviceOnline : Bool) : LoadControlUI :=
  if locked then LoadControlUI.lockIcon
  else LoadControlUI.toggleSwitch isOn (isControlling || !deviceOnline)

/-- A toggle command can be issued only through an enabled Switch: the Lock
icon has no handler and a disabled Switch does not fire onCheckedChange. -/
def canIssueToggle (ui : LoadControlUI) : Bool :=
  match ui with
  | LoadControlUI.lockIcon => false
  | LoadControlUI.toggleSwitch _ disabled => !disabled

/-- Disabled attribute of a GridPage mode button: settingMode || !deviceOnline
(src/unnamed/part_001 line 237); a disabled button does not fire onClick, so
handleModeChange is reachable only when this is false. -/
def gridModeButtonDisabled (settingMode deviceOnline : Bool) : Bool :=
  settingMode || !deviceOnline

/-- One history item as charted: timestamp plus power and current channels. -/
structure Item where
  timestamp : Option String
  power : ℚ
  chan_current : ℚ

/-- Charted item: the spread of the history item plus the derived time label. -/
structure TimedItem where
  item : Item
  time : String

/-- Per-item transform of the chart pipeline: spread the item and add
time := timestamp ? format(parseISO(timestamp), HH:mm) : the empty string.
The date-fns formatter is an external library, passed in as fmt. -/
def timeStamped (fmt : String → String) (it : Item) : TimedItem :=
  { item := it,
    time := match it.timestamp with
            | some ts => fmt ts
            | none => "" }

/-- JS Array.prototype.slice with a negative start: slice(-n) keeps the last n
elements, the whole array when it is shorter than n. -/
def sliceLast (n : Nat) (l : List α) : List α :=
  l.drop (l.length - n)

/-- Fields of the /api/load payload that LoadPage reads. -/
structure LoadPayload where
  current : Option CurrentPayload
  history : Option (List Item)
  battery_soc : Option ℚ
  device_online : Option Bool

/-- Derived batterySoc of the newer LoadPage variant (src/unnamed/part_003
line 80): loadData.battery_soc ?? 100 behind an optional chain. -/
def batterySocOf (loadData : Option LoadPayload) : ℚ :=
  jsNullish (loadData.bind LoadPayload.battery_soc) 100

/-- Chart series of LoadPage (src/unnamed/part_003 lines 61 to 64, identically
src/unnamed/part_002 lines 275 to 278): map the history through the time
labeller, keep the last 50, and fall back to the empty array when the payload
or its history is absent. -/
def chartDataOf (fmt : String → String) (loadData : Option LoadPayload) : List TimedItem :=
  match loadData.bind LoadPayload.history with
  | none => []
  | some h => sliceLast 50 (h.map (timeStamped fmt))

/-- Derived deviceOnline of LoadPage (src/unnamed/part_003 line 78):
loadData.device_online ?? false behind an optional chain. -/
def deviceOnlineLoad (loadData : Option LoadPayload) : Bool :=
  jsNullishBool (loadData.bind LoadPayload.device_online) false

/-- Fields of a page payload that the deviceOnline derivations read. -/
structure PagePayload where
  device_online : Option Bool

/-- Derived deviceOnline of DashboardPage (src/frontend/src/pages/
DashboardPage.jsx lines 70 to 71): data is dashboardData || the empty object,
then data.device_online !== undefined ? data.device_online : false. -/
def deviceOnlineDashboard (dashboardData : Option PagePayload) : Bool :=
  match dashboardData with
  | none => false
  | some d =>
      match d.device_online with
      | some b => b
      | none => false

/-- Derived deviceOnline of SolarPage (src/frontend/src/pages/SolarPage.jsx
line 58): solarData.device_online ?? false behind an optional chain. -/
def deviceOnlineSolar (solarData : Option PagePayload) : Bool :=
  jsNullishBool (solarData.bind PagePayload.device_online) false

/-- Derived deviceOnline of GridPage (src/unnamed/part_001 line 55):
gridData.device_online ?? false behind an optional chain. -/
def deviceOnlineGrid (gridData : Option PagePayload) : Bool :=
  jsNullishBool (gridData.bind PagePayload.device_online) false

/-- Derived deviceOnline of ChartsPage (src/frontend/src/pages/ChartsPage.jsx
lines 54 and 640): setDeviceOnline(data.device_online ?? true) on a fetched
payload — here the default is true, and the state is also initialised to
true at line 42. -/
def deviceOnlineCharts (data : PagePayload) : Bool :=
  jsNullishBool data.device_online true

/-- Error body a failing response may carry, as read by handleResponse. -/
structure ErrorBody where
  detail : Option String
  message : Option String

/-- Fetch-style response as consumed by handleResponse (src/unnamed/part_006
lines 22 to 34): ok flag, the JSON error body when the failing body parses
(none models a body whose parse throws), the parsed value of the success path,
and the status text. -/
structure HttpResponse (α : Type) where
  ok : Bool
  errorJson : Option ErrorBody
  jsonValue : α
  statusText : String

/-- Embedding of handleResponse: on a non-ok response it throws an Error whose
message is errorData.detail || errorData.message || the fixed fallback, or
statusText || the fixed fallback when the body does not parse; on an ok
response it returns the parsed JSON.  A thrown Error is the Except.error
branch; a structured return is Except.ok. -/
def handleResponse (r : HttpResponse α) : Except String α :=
  if r.ok then
    Except.ok r.jsonValue
  else
    Except.error
      (match r.errorJson with
       | some e => jsOrStr e.detail (jsOrStr e.message "Request failed")
       | none => if r.statusText = "" then "Request failed" else r.statusText)

/-- Decides whether the call ended in a thrown Error. -/
def exceptIsError (e : Except String α) : Bool :=
  match e with
  | Except.error _ => true
  | Except.ok _ => false

/-- Embedding of api.controlLoad (src/unnamed/part_006 lines 95 to 102): the
fetch of the control endpoint yields a response that is passed straight to
handleResponse. -/
def controlLoad (r : HttpResponse α) : Except String α :=
  handleResponse r

/-- Modelled from the spec: the backend Forecast Engine (main.py and the ai
directory are not among the provided sources).  Ordinary-least-squares slope
over (elapsed_seconds, power) pairs; a degenerate denominator yields 0, per
the zero-output degradation the spec prescribes for too little data. -/
def olsSlope (pts : List (ℚ × ℚ)) : ℚ :=
  let n : ℚ := pts.length
  let sx := (pts.map Prod.fst).sum
  let sy := (pts.map Prod.snd).sum
  let sxy := (pts.map (fun p => p.1 * p.2)).sum
  let sxx := (pts.map (fun p => p.1 * p.1)).sum
  if n * sxx - sx * sx = 0 then 0 else (n * sxy - sx * sy) / (n * sxx - sx * sx)

/-- Modelled from the spec: OLS intercept matching olsSlope. -/
def olsIntercept (pts : List (ℚ × ℚ)) : ℚ :=
  let n : ℚ := pts.length
  let sx := (pts.map Prod.fst).sum
  let sy := (pts.map Prod.snd).sum
  if n = 0 then 0 else (sy - olsSlope pts * sx) / n

/-- Modelled from the spec: raw linear projection of power at elapsed time x. -/
def olsProject (pts : List (ℚ × ℚ)) (x : ℚ) : ℚ :=
  olsIntercept pts + olsSlope pts * x

/-- Modelled from the spec: the published linear forecast clamps negative
projections to 0. -/
def linearForecast (pts : List (ℚ × ℚ)) (x : ℚ) : ℚ :=
  max 0 (olsProject pts x)

/-- C1 counterexample: on the SOC trajectory 19, 21, 19 — which falls below 20
and oscillates without ever reaching 25 — the pump does not remain Locked: it
is already Unlocked at SOC 21, before SOC reaches 25. -/
theorem pump_hysteresis_counterexample :
    pumpLockTrace [19, 21, 19] = [true, false, true] := by
  decide

/-- C1 (amended): the pump interlock is stateless, with no hysteresis — at
every step of a trajectory it is Locked exactly when the current SOC is below
20, so it unlocks as soon as SOC reaches 20 (already at 21, not only at 25).
In particular at SOC 25 it is Unlocked. -/
theorem pump_interlock_stateless :
    (∀ s : ℚ, pumpLockedNullish (some s) = true ↔ s < 20) ∧
      pumpLockTrace [19, 21, 19] = [true, false, true] ∧
      pumpLockedNullish (some 25) = false := by
  refine ⟨fun s => ?_, by decide, by decide⟩
  simp [pumpLockedNullish, jsNullish]

/-- C2 counterexample: with the SOC field absent from the payload both lock
expressions default the SOC to 100 and report the pump Unlocked, and the
logical-or variant also reports Unlocked at SOC equal to 0. -/
theorem pump_lock_default_counterexample :
    pumpLockedNullish none = false ∧ pumpLockedOr none = false ∧
      pumpLockedOr (some 0) = false := by
  decide

/-- C2 (amended): the pump is reported Locked exactly when the defaulted SOC
is below 20: the nullish variant locks for every present SOC below 20
including 0 but reports Unlocked when the field is absent (default 100); the
logical-or variant locks for present nonzero SOC below 20 but reports
Unlocked both when the field is absent and at SOC equal to 0 (0 is falsy and
defaults to 100). -/
theorem pump_lock_condition_amended :
    (∀ s : ℚ, pumpLockedNullish (some s) = decide (s < 20)) ∧
      pumpLockedNullish none = false ∧
      (∀ s : ℚ, s ≠ 0 → pumpLockedOr (some s) = decide (s < 20)) ∧
      pumpLockedOr (some 0) = false ∧ pumpLockedOr none = false := by
  refine ⟨fun s => rfl, by decide, fun s hs => ?_, by decide, by decide⟩
  simp [pumpLockedOr, jsOrDefault, hs]

/-- C2 witness: the amended lock condition evaluated at the concrete present
SOC 19, which is nonzero. -/
theorem pump_lock_condition_amended_witness :
    (19 : ℚ) ≠ 0 ∧ pumpLockedOr (some 19) = decide ((19 : ℚ) < 20) :=
  ⟨by norm_num, pump_lock_condition_amended.2.2.1 19 (by norm_num)⟩

/-- C3: in both LoadPage variants, for every payload and every SOC value, the
light (Essential) and fan (SemiEssential) entries carry lock flag false;
only the pump (NonEssential) entry depends on SOC. -/
theorem tier_policy_never_locks_light_fan :
    ∀ (c : CurrentPayload) (b : ℚ),
      (loadsV3 c b).map LoadEntry.locked = [false, false, decide (b < 20)] ∧
      (loadsV2 c).map LoadEntry.locked = [false, false, pumpLockedOr c.soc] ∧
      (loadsV3 c b).map LoadEntry.tier =
        [Tier.essential, Tier.semiEssential, Tier.nonEssential] ∧
      (loadsV2 c).map LoadEntry.tier =
        [Tier.essential, Tier.semiEssential, Tier.nonEssential] := by
  intro c b
  exact ⟨rfl, rfl, rfl, rfl⟩

/-- C4: while a load is interlocked (lock flag true) the page renders the Lock
icon and never a Switch, so no toggle — hence no handleToggle and no
controlLoad call — can be issued for it, whatever the desired state and the
other flags. -/
theorem locked_load_renders_lock_icon :
    ∀ (isOn isControlling deviceOnline : Bool),
      renderLoadControl true isOn isControlling deviceOnline = LoadControlUI.lockIcon ∧
      canIssueToggle (renderLoadControl true isOn isControlling deviceOnline) = false := by
  intro isOn isControlling deviceOnline
  exact ⟨rfl, rfl⟩

/-- C5 counterexample: a non-success response to controlLoad (ok false, body
carrying a detail) is delivered as a thrown Error carrying that detail, not as
a structured ok value. -/
theorem rejection_thrown_counterexample :
    controlLoad ({ ok := false,
                   errorJson := some { detail := some "Pump is locked", message := none },
                   jsonValue := (), statusText := "Forbidden" } : HttpResponse Unit)
        = Except.error "Pump is locked" ∧
      exceptIsError
        (controlLoad ({ ok := false,
                        errorJson := some { detail := some "Pump is locked", message := none },
                        jsonValue := (), statusText := "Forbidden" } : HttpResponse Unit))
        = true := by
  exact ⟨rfl, rfl⟩

/-- C5 (amended): every non-success response to controlLoad ends in a thrown
Error, never in a structured return value — the pages catch it and surface the
message — while every success response returns the parsed JSON structurally. -/
theorem rejection_is_thrown_error {α : Type} :
    ∀ (body : Option ErrorBody) (st : String) (v : α),
      exceptIsError
          (controlLoad { ok := false, errorJson := body, jsonValue := v, statusText := st })
        = true ∧
      controlLoad { ok := true, errorJson := body, jsonValue := v, statusText := st }
        = Except.ok v := by
  intro body st v
  exact ⟨rfl, rfl⟩

/-- C6: the chart series is the time-labelled history cut to at most its last
50 entries in input order: it is a suffix of the labelled history, its length
is the minimum of the input length and 50, and an absent or empty history
yields the empty series. -/
theorem recent_window_properties :
    ∀ (fmt : String → String) (c : Option CurrentPayload) (b : Option ℚ)
      (d : Option Bool) (h : List Item),
      chartDataOf fmt
          (some { current := c, history := some h, battery_soc := b, device_online := d })
        <:+ h.map (timeStamped fmt) ∧
      (chartDataOf fmt
          (some { current := c, history := some h, battery_soc := b, device_online := d })).length
        = min h.length 50 ∧
      chartDataOf fmt none = [] ∧
      chartDataOf fmt
          (some { current := c, history := some [], battery_soc := b, device_online := d })
        = [] := by
  intro fmt c b d h
  refine ⟨?_, ?_, rfl, rfl⟩
  · simpa [chartDataOf, sliceLast] using
      List.drop_suffix ((h.map (timeStamped fmt)).length - 50) (h.map (timeStamped fmt))
  · simp only [chartDataOf, Option.bind, sliceLast, List.length_drop, List.length_map]
    omega

/-- C7: on the perfectly linear history (0 s, 100 W), (3600 s, 120 W),
(7200 s, 140 W), the linear forecast projected at elapsed 10800 s (one hour
past the last sample) is exactly 160 W; every published forecast is
nonnegative, and a negative raw projection is published as 0. -/
theorem ols_forecast_exact :
    linearForecast [(0, 100), (3600, 120), (7200, 140)] 10800 = 160 ∧
      (∀ (pts : List (ℚ × ℚ)) (x : ℚ), 0 ≤ linearForecast pts x) ∧
      (∀ (pts : List (ℚ × ℚ)) (x : ℚ),
        olsProject pts x < 0 → linearForecast pts x = 0) := by
  have hp : olsProject [(0, 100), (3600, 120), (7200, 140)] 10800 = 160 := by
    norm_num [olsProject, olsIntercept, olsSlope]
  refine ⟨?_, fun pts x => le_max_left 0 (olsProject pts x),
    fun pts x hx => max_eq_left hx.le⟩
  simp only [linearForecast, hp]
  norm_num

/-- C7 witness: the clamp clause evaluated on a concrete decreasing history
whose raw projection at elapsed 7200 s is negative. -/
theorem ols_forecast_exact_witness :
    olsProject [(0, 10), (3600, 0)] 7200 < 0 ∧
      linearForecast [(0, 10), (3600, 0)] 7200 = 0 :=
  ⟨by norm_num [olsProject, olsIntercept, olsSlope],
   ols_forecast_exact.2.2 [(0, 10), (3600, 0)] 7200
     (by norm_num [olsProject, olsIntercept, olsSlope])⟩

/-- C8 counterexample: ChartsPage derives its deviceOnline flag with the
opposite default — on a payload whose device_online field is absent it yields
true, treating the device as online, so not every page defaults to offline. -/
theorem charts_device_online_counterexample :
    deviceOnlineCharts { device_online := none } = true := by
  rfl

/-- C8 (amended): when the device_online field is absent (or the whole payload
is still null), DashboardPage, LoadPage, SolarPage and GridPage each derive
deviceOnline as false and take the offline warning path; ChartsPage is the
exception: its derivation defaults the absent field to true (and copies a
present field), treating the device as online by default. -/
theorem device_online_defaults_false :
    ∀ (c : Option CurrentPayload) (h : Option (List Item)) (b : Option ℚ),
      deviceOnlineDashboard none = false ∧
      deviceOnlineDashboard (some { device_online := none }) = false ∧
      deviceOnlineLoad none = false ∧
      deviceOnlineLoad
          (some { current := c, history := h, battery_soc := b, device_online := none })
        = false ∧
      deviceOnlineSolar none = false ∧
      deviceOnlineSolar (some { device_online := none }) = false ∧
      deviceOnlineGrid none = false ∧
      deviceOnlineGrid (some { device_online := none }) = false ∧
      deviceOnlineCharts { device_online := none } = true ∧
      (∀ online : Bool, deviceOnlineCharts { device_online := some online } = online) := by
  intro c h b
  exact ⟨rfl, rfl, rfl, rfl, rfl, rfl, rfl, rfl, rfl, fun online => rfl⟩

/-- C9 counterexample: at SOC equal to 0 the two LoadPage lock expressions
disagree: the logical-or variant treats 0 as falsy, defaults to 100 and
reports the pump unlocked, while the nullish variant keeps the 0 and reports
it locked. -/
theorem lock_variants_disagree_at_zero :
    pumpLockedOr (some 0) = false ∧ pumpLockedNullish (some 0) = true := by
  decide

/-- C9 (amended): the two lock expressions agree on every input except a
present SOC equal to 0 — they agree whenever the field is absent and on every
present nonzero SOC value. -/
theorem lock_variants_agree_amended :
    ∀ s : Option ℚ, s ≠ some 0 → pumpLockedOr s = pumpLockedNullish s := by
  intro s hs
  match s with
  | none => rfl
  | some v =>
      have hv : v ≠ 0 := fun h => hs (by rw [h])
      simp [pumpLockedOr, pumpLockedNullish, jsOrDefault, jsNullish, hv]

/-- C9 witness: the amended agreement evaluated at the concrete present SOC
19, which is not 0. -/
theorem lock_variants_agree_amended_witness :
    some (19 : ℚ) ≠ some (0 : ℚ) ∧
      pumpLockedOr (some 19) = pumpLockedNullish (some 19) :=
  ⟨by decide, lock_variants_agree_amended (some 19) (by decide)⟩

/-- C10: whenever the derived deviceOnline flag is false, no actuation can be
issued from the UI — every load control is either the Lock icon or a disabled
Switch, and every grid mode button is disabled, so handleToggle and
handleModeChange are unreachable. -/
theorem offline_disables_actuation :
    ∀ (locked isOn isControlling settingMode : Bool),
      canIssueToggle (renderLoadControl locked isOn isControlling false) = false ∧
      gridModeButtonDisabled settingMode false = true := by
  intro locked isOn isControlling settingMode
  constructor
  · cases locked <;> simp [renderLoadControl, canIssueToggle]
  · cases settingMode <;> rfl
